import Mathlib

/-!
# Verification of the pugl-rs safety layer

A shallow embedding of the core of the `pugl-rs` crate (the Rust safety layer
over the native `pugl` windowing toolkit) together with proofs about its
behaviour.  The embedded functions are translated from the repository sources:

* `src/pugl-rs/src/world.rs`  — `World::new_program`, `World::new_module`,
  `World::update`, `WorldInner::replace_poison`;
* `src/pugl-rs/src/view.rs`   — `UnrealizedView::new`,
  `UnrealizedView::with_event_handler`, `UnrealizedView::realize`,
  `View::set_size`, `Drop for View`, and the `event_handler` dispatch
  trampoline;
* `src/pugl-rs/src/data.rs`   — `Event::process` (the raw-to-typed event
  translator) and the helper `from_raw` conversions.

The native toolkit is an external black box (spec §6); it is modelled as an
explicit environment: hint stores are record fields, fallible native calls are
oracles producing status codes, and the clipboard query functions are fields of
a `NativeEnv` record.  Machine doubles occurring in event records are carried
as rationals: the embedded code only copies them, never computes with them.
-/

set_option autoImplicit false

namespace Pugl

/-- Stand-in for the C `double` fields of raw event records.  The translated
code never performs floating-point arithmetic on these values — it only copies
them from the raw record into the typed event — so any value type with
decidable equality is a faithful carrier. -/
abbrev F64 := Rat

/-- Modelled from the spec: the native toolkit's status enumeration
(`PuglStatus` in the generated bindings, which live outside `src/`).  The
wrapper code under `src/` only matches on the named constants, so the model
is an inductive type with one constructor per status; the numeric values
assigned by the native header are irrelevant to every claim. -/
inductive PuglStatus
  | success
  | failure
  | unknownError
  | badBackend
  | badConfiguration
  | badParameter
  | backendFailed
  | registrationFailed
  | realizeFailed
  | setFormatFailed
  | createContextFailed
  | unsupported
  | noMemory
  deriving DecidableEq, Repr

/-- `WorldError` from `world.rs`: a unit-like struct (one value). -/
inductive WorldError
  | worldError
  deriving DecidableEq, Repr

/-- `ViewError` from `view.rs`. -/
inductive ViewError
  | badConfig
  | badBackend
  | backendInit
  | classRegister
  | osRealize
  | createContext
  | setPixelFormat
  | outOfMemory
  | unknown
  deriving DecidableEq, Repr

/-! ## UTF-8 validation

`data.rs` uses `std::str::from_utf8` to decode the key-text buffer and the
clipboard payload.  `from_utf8` succeeds exactly on byte sequences that are
well-formed UTF-8 (no overlong encodings, no surrogate code points, nothing
above U+10FFFF).  `validUtf8` is that standard validation automaton over byte
lists; a Rust `&str` is its bytes, so the typed events below carry the
validated byte list itself. -/

/-- Is `b` a UTF-8 continuation byte (`0x80 ..= 0xBF`)? -/
def isCont (b : Nat) : Bool := 0x80 ≤ b && b ≤ 0xBF

/-- UTF-8 well-formedness of a byte sequence, exactly as decided by Rust's
`std::str::from_utf8` (RFC 3629 UTF-8). -/
def validUtf8 : List Nat → Bool
  | [] => true
  | b :: rest =>
    if b ≤ 0x7F then
      validUtf8 rest
    else if 0xC2 ≤ b && b ≤ 0xDF then
      match rest with
      | c1 :: r => isCont c1 && validUtf8 r
      | [] => false
    else if b = 0xE0 then
      match rest with
      | c1 :: c2 :: r => (0xA0 ≤ c1 && c1 ≤ 0xBF) && isCont c2 && validUtf8 r
      | _ => false
    else if 0xE1 ≤ b && b ≤ 0xEC then
      match rest with
      | c1 :: c2 :: r => isCont c1 && isCont c2 && validUtf8 r
      | _ => false
    else if b = 0xED then
      match rest with
      | c1 :: c2 :: r => (0x80 ≤ c1 && c1 ≤ 0x9F) && isCont c2 && validUtf8 r
      | _ => false
    else if 0xEE ≤ b && b ≤ 0xEF then
      match rest with
      | c1 :: c2 :: r => isCont c1 && isCont c2 && validUtf8 r
      | _ => false
    else if b = 0xF0 then
      match rest with
      | c1 :: c2 :: c3 :: r =>
        (0x90 ≤ c1 && c1 ≤ 0xBF) && isCont c2 && isCont c3 && validUtf8 r
      | _ => false
    else if 0xF1 ≤ b && b ≤ 0xF3 then
      match rest with
      | c1 :: c2 :: c3 :: r => isCont c1 && isCont c2 && isCont c3 && validUtf8 r
      | _ => false
    else if b = 0xF4 then
      match rest with
      | c1 :: c2 :: c3 :: r =>
        (0x80 ≤ c1 && c1 ≤ 0x8F) && isCont c2 && isCont c3 && validUtf8 r
      | _ => false
    else
      false

/-- The byte content of the C string literal `"text/plain"` used by
`data.rs` for both clipboard branches.  The source compares
`CStr::from_ptr(type_).to_str() == Ok("text/plain")`, which holds exactly
when the queried type's bytes (up to the terminating NUL) are this list:
if the bytes are not valid UTF-8 then `to_str` is `Err`, and `"text/plain"`
itself is ASCII. -/
def textPlainBytes : List Nat :=
  [0x74, 0x65, 0x78, 0x74, 0x2F, 0x70, 0x6C, 0x61, 0x69, 0x6E]

example : validUtf8 [0xC3, 0xA9] = true := by decide
example : validUtf8 [0xFF] = false := by decide
example : validUtf8 textPlainBytes = true := by decide

/-! ## Native constants

The numeric constants below come from the native toolkit's header (outside
`src/`); the wrapper only compares raw fields against them.  Only their
distinctness (and, for the flag bits, their nonzero-ness) matters to any
claim, so they are modelled with fixed representative values. -/

namespace sys

/-- Modelled from the spec: the `PUGL_IS_HINT` event flag bit ("hint" flag —
event coalesced, not a direct device event, spec §3/EventInput). -/
def PUGL_IS_HINT : Nat := 2

/-- Modelled from the spec: the `PUGL_IS_SEND_EVENT` event flag bit. -/
def PUGL_IS_SEND_EVENT : Nat := 1

/-- Modelled from the spec: the native crossing-mode constant for grabs. -/
def PUGL_CROSSING_GRAB : Nat := 1

/-- Modelled from the spec: the native crossing-mode constant for grab
releases. -/
def PUGL_CROSSING_UNGRAB : Nat := 2

/-- Modelled from the spec: discrete scroll-direction constants.  The
translator maps these four to `Up`/`Down`/`Left`/`Right` and everything else
to `Smooth`. -/
def PUGL_SCROLL_UP : Nat := 1

def PUGL_SCROLL_DOWN : Nat := 2

def PUGL_SCROLL_LEFT : Nat := 3

def PUGL_SCROLL_RIGHT : Nat := 4

end sys

/-- `CrossingMode` from `data.rs`. -/
inductive CrossingMode
  | normal
  | grab
  | ungrab
  deriving DecidableEq, Repr

/-- `MouseButton` from `data.rs`. -/
inductive MouseButton
  | left
  | right
  | middle
  | back
  | forward
  | other (raw : Nat)
  deriving DecidableEq, Repr

/-- `ScrollDirection` from `data.rs`. -/
inductive ScrollDirection
  | up
  | down
  | left
  | right
  | smooth
  deriving DecidableEq, Repr

/-- `CrossingMode::from_raw` (`data.rs`). -/
def CrossingMode.from_raw (raw : Nat) : CrossingMode :=
  if raw = sys.PUGL_CROSSING_GRAB then .grab
  else if raw = sys.PUGL_CROSSING_UNGRAB then .ungrab
  else .normal

/-- `MouseButton::from_raw` (`data.rs`): raw indices 0–4 map to
Left/Right/Middle/Back/Forward, anything else to `Other(raw)`. -/
def MouseButton.from_raw (raw : Nat) : MouseButton :=
  match raw with
  | 0 => .left
  | 1 => .right
  | 2 => .middle
  | 3 => .back
  | 4 => .forward
  | _ => .other raw

/-- `ScrollDirection::from_raw` (`data.rs`). -/
def ScrollDirection.from_raw (raw : Nat) : ScrollDirection :=
  if raw = sys.PUGL_SCROLL_UP then .up
  else if raw = sys.PUGL_SCROLL_DOWN then .down
  else if raw = sys.PUGL_SCROLL_LEFT then .left
  else if raw = sys.PUGL_SCROLL_RIGHT then .right
  else .smooth

/-- `Modifiers::from_bits_truncate`.  Modelled from the spec: the modifier
set has exactly seven flags (§4.2 EventInput / `data.rs` bitflags), which the
native header places in the seven low bits; unknown bits are truncated. -/
def Modifiers.fromBitsTruncate (state : Nat) : Nat :=
  state &&& 0x7F

/-- `ViewStyle::from_bits_truncate`.  Modelled from the spec: the view-style
set has exactly ten flags (`data.rs` bitflags), which the native header
places in the ten low bits; unknown bits are truncated. -/
def ViewStyle.fromBitsTruncate (style : Nat) : Nat :=
  style &&& 0x3FF

/-- Rust's `char::from_u32`: succeeds exactly on Unicode scalar values
(below `0x110000` and not a surrogate).  The scalar is carried as a `Nat`. -/
def charFromU32 (n : Nat) : Option Nat :=
  if n < 0x110000 && !(0xD800 ≤ n && n ≤ 0xDFFF) then some n else none

namespace sys

/-- Modelled from the spec: the native special-key constants (`PuglKey`).
The spec (§4.2) only requires them to be a closed set of logical-key codes
disjoint from `0` (the "no key" sentinel); the wrapper compares the raw key
field against each in turn.  They are modelled as consecutive code points in
the private-use area, which also matches their disjointness from ordinary
character keys. -/
def PUGL_KEY_ALT_L : Nat := 0xE000

def PUGL_KEY_ALT_R : Nat := 0xE001

def PUGL_KEY_CTRL_L : Nat := 0xE002

def PUGL_KEY_CTRL_R : Nat := 0xE003

def PUGL_KEY_SHIFT_L : Nat := 0xE004

def PUGL_KEY_SHIFT_R : Nat := 0xE005

def PUGL_KEY_SUPER_L : Nat := 0xE006

def PUGL_KEY_SUPER_R : Nat := 0xE007

def PUGL_KEY_CAPS_LOCK : Nat := 0xE008

def PUGL_KEY_NUM_LOCK : Nat := 0xE009

def PUGL_KEY_PAUSE : Nat := 0xE00A

def PUGL_KEY_PRINT_SCREEN : Nat := 0xE00B

def PUGL_KEY_SCROLL_LOCK : Nat := 0xE00C

def PUGL_KEY_PAGE_DOWN : Nat := 0xE00D

def PUGL_KEY_PAGE_UP : Nat := 0xE00E

def PUGL_KEY_END : Nat := 0xE00F

def PUGL_KEY_MENU : Nat := 0xE010

def PUGL_KEY_HOME : Nat := 0xE011

def PUGL_KEY_INSERT : Nat := 0xE012

def PUGL_KEY_F1 : Nat := 0xE013

def PUGL_KEY_F2 : Nat := 0xE014

def PUGL_KEY_F3 : Nat := 0xE015

def PUGL_KEY_F4 : Nat := 0xE016

def PUGL_KEY_F5 : Nat := 0xE017

def PUGL_KEY_F6 : Nat := 0xE018

def PUGL_KEY_F7 : Nat := 0xE019

def PUGL_KEY_F8 : Nat := 0xE01A

def PUGL_KEY_F9 : Nat := 0xE01B

def PUGL_KEY_F10 : Nat := 0xE01C

def PUGL_KEY_F11 : Nat := 0xE01D

def PUGL_KEY_F12 : Nat := 0xE01E

def PUGL_KEY_DOWN : Nat := 0xE01F

def PUGL_KEY_LEFT : Nat := 0xE020

def PUGL_KEY_RIGHT : Nat := 0xE021

def PUGL_KEY_UP : Nat := 0xE022

def PUGL_KEY_PAD_0 : Nat := 0xE023

def PUGL_KEY_PAD_1 : Nat := 0xE024

def PUGL_KEY_PAD_2 : Nat := 0xE025

def PUGL_KEY_PAD_3 : Nat := 0xE026

def PUGL_KEY_PAD_4 : Nat := 0xE027

def PUGL_KEY_PAD_5 : Nat := 0xE028

def PUGL_KEY_PAD_6 : Nat := 0xE029

def PUGL_KEY_PAD_7 : Nat := 0xE02A

def PUGL_KEY_PAD_8 : Nat := 0xE02B

def PUGL_KEY_PAD_9 : Nat := 0xE02C

def PUGL_KEY_PAD_ADD : Nat := 0xE02D

def PUGL_KEY_PAD_SUBTRACT : Nat := 0xE02E

def PUGL_KEY_PAD_MULTIPLY : Nat := 0xE02F

def PUGL_KEY_PAD_DIVIDE : Nat := 0xE030

def PUGL_KEY_PAD_DECIMAL : Nat := 0xE031

def PUGL_KEY_PAD_ENTER : Nat := 0xE032

def PUGL_KEY_PAD_EQUAL : Nat := 0xE033

def PUGL_KEY_PAD_UP : Nat := 0xE034

def PUGL_KEY_PAD_DOWN : Nat := 0xE035

def PUGL_KEY_PAD_LEFT : Nat := 0xE036

def PUGL_KEY_PAD_RIGHT : Nat := 0xE037

def PUGL_KEY_PAD_HOME : Nat := 0xE038

def PUGL_KEY_PAD_END : Nat := 0xE039

def PUGL_KEY_PAD_PAGE_UP : Nat := 0xE03A

def PUGL_KEY_PAD_PAGE_DOWN : Nat := 0xE03B

def PUGL_KEY_PAD_INSERT : Nat := 0xE03C

def PUGL_KEY_PAD_DELETE : Nat := 0xE03D

def PUGL_KEY_PAD_SEPARATOR : Nat := 0xE03E

def PUGL_KEY_PAD_CLEAR : Nat := 0xE03F

end sys

set_option maxHeartbeats 1600000 in
/-- `Key` from `data.rs` (`end` is a Lean keyword, hence `end_`). -/
inductive Key
  | none
  | char (c : Nat)
  | f1
  | f2
  | f3
  | f4
  | f5
  | f6
  | f7
  | f8
  | f9
  | f10
  | f11
  | f12
  | left
  | up
  | right
  | down
  | pageUp
  | pageDown
  | home
  | end_
  | insert
  | shiftL
  | shiftR
  | ctrlL
  | ctrlR
  | altL
  | altR
  | superL
  | superR
  | menu
  | capsLock
  | scrollLock
  | numLock
  | printScreen
  | pause
  | numpad0
  | numpad1
  | numpad2
  | numpad3
  | numpad4
  | numpad5
  | numpad6
  | numpad7
  | numpad8
  | numpad9
  | numpadAdd
  | numpadSubtract
  | numpadMultiply
  | numpadDivide
  | numpadDecimal
  | numpadEnter
  | numpadEqual
  | numpadUp
  | numpadDown
  | numpadLeft
  | numpadRight
  | numpadHome
  | numpadEnd
  | numpadPageUp
  | numpadPageDown
  | numpadInsert
  | numpadDelete
  | numpadSeparator
  | numpadClear
  deriving Repr

/-- `Key::from_raw` (`data.rs`): the raw key field is compared against the
sentinel `0`, then each native key constant in the source's order, and
finally falls back to `char::from_u32` (yielding `Key::None` when the value
is not a Unicode scalar). -/
def Key.from_raw (raw : Nat) : Key :=
  if raw = 0 then .none
  else if raw = sys.PUGL_KEY_ALT_L then .altL
  else if raw = sys.PUGL_KEY_ALT_R then .altR
  else if raw = sys.PUGL_KEY_CTRL_L then .ctrlL
  else if raw = sys.PUGL_KEY_CTRL_R then .ctrlR
  else if raw = sys.PUGL_KEY_SHIFT_L then .shiftL
  else if raw = sys.PUGL_KEY_SHIFT_R then .shiftR
  else if raw = sys.PUGL_KEY_SUPER_L then .superL
  else if raw = sys.PUGL_KEY_SUPER_R then .superR
  else if raw = sys.PUGL_KEY_CAPS_LOCK then .capsLock
  else if raw = sys.PUGL_KEY_NUM_LOCK then .numLock
  else if raw = sys.PUGL_KEY_PAUSE then .pause
  else if raw = sys.PUGL_KEY_PRINT_SCREEN then .printScreen
  else if raw = sys.PUGL_KEY_SCROLL_LOCK then .scrollLock
  else if raw = sys.PUGL_KEY_PAGE_DOWN then .pageDown
  else if raw = sys.PUGL_KEY_PAGE_UP then .pageUp
  else if raw = sys.PUGL_KEY_END then .end_
  else if raw = sys.PUGL_KEY_MENU then .menu
  else if raw = sys.PUGL_KEY_HOME then .home
  else if raw = sys.PUGL_KEY_INSERT then .insert
  else if raw = sys.PUGL_KEY_F1 then .f1
  else if raw = sys.PUGL_KEY_F2 then .f2
  else if raw = sys.PUGL_KEY_F3 then .f3
  else if raw = sys.PUGL_KEY_F4 then .f4
  else if raw = sys.PUGL_KEY_F5 then .f5
  else if raw = sys.PUGL_KEY_F6 then .f6
  else if raw = sys.PUGL_KEY_F7 then .f7
  else if raw = sys.PUGL_KEY_F8 then .f8
  else if raw = sys.PUGL_KEY_F9 then .f9
  else if raw = sys.PUGL_KEY_F10 then .f10
  else if raw = sys.PUGL_KEY_F11 then .f11
  else if raw = sys.PUGL_KEY_F12 then .f12
  else if raw = sys.PUGL_KEY_DOWN then .down
  else if raw = sys.PUGL_KEY_LEFT then .left
  else if raw = sys.PUGL_KEY_RIGHT then .right
  else if raw = sys.PUGL_KEY_UP then .up
  else if raw = sys.PUGL_KEY_PAD_0 then .numpad0
  else if raw = sys.PUGL_KEY_PAD_1 then .numpad1
  else if raw = sys.PUGL_KEY_PAD_2 then .numpad2
  else if raw = sys.PUGL_KEY_PAD_3 then .numpad3
  else if raw = sys.PUGL_KEY_PAD_4 then .numpad4
  else if raw = sys.PUGL_KEY_PAD_5 then .numpad5
  else if raw = sys.PUGL_KEY_PAD_6 then .numpad6
  else if raw = sys.PUGL_KEY_PAD_7 then .numpad7
  else if raw = sys.PUGL_KEY_PAD_8 then .numpad8
  else if raw = sys.PUGL_KEY_PAD_9 then .numpad9
  else if raw = sys.PUGL_KEY_PAD_ADD then .numpadAdd
  else if raw = sys.PUGL_KEY_PAD_SUBTRACT then .numpadSubtract
  else if raw = sys.PUGL_KEY_PAD_MULTIPLY then .numpadMultiply
  else if raw = sys.PUGL_KEY_PAD_DIVIDE then .numpadDivide
  else if raw = sys.PUGL_KEY_PAD_DECIMAL then .numpadDecimal
  else if raw = sys.PUGL_KEY_PAD_ENTER then .numpadEnter
  else if raw = sys.PUGL_KEY_PAD_EQUAL then .numpadEqual
  else if raw = sys.PUGL_KEY_PAD_UP then .numpadUp
  else if raw = sys.PUGL_KEY_PAD_DOWN then .numpadDown
  else if raw = sys.PUGL_KEY_PAD_LEFT then .numpadLeft
  else if raw = sys.PUGL_KEY_PAD_RIGHT then .numpadRight
  else if raw = sys.PUGL_KEY_PAD_HOME then .numpadHome
  else if raw = sys.PUGL_KEY_PAD_END then .numpadEnd
  else if raw = sys.PUGL_KEY_PAD_PAGE_UP then .numpadPageUp
  else if raw = sys.PUGL_KEY_PAD_PAGE_DOWN then .numpadPageDown
  else if raw = sys.PUGL_KEY_PAD_INSERT then .numpadInsert
  else if raw = sys.PUGL_KEY_PAD_DELETE then .numpadDelete
  else if raw = sys.PUGL_KEY_PAD_SEPARATOR then .numpadSeparator
  else if raw = sys.PUGL_KEY_PAD_CLEAR then .numpadClear
  else
    match charFromU32 raw with
    | some c => .char c
    | Option.none => .none

/-! ## Raw and typed event records -/

/-- `Rect` from `data.rs`. -/
structure Rect where
  x : Int
  y : Int
  w : Nat
  h : Nat
  deriving DecidableEq, Repr

/-- The shared fields of the raw pointer/keyboard event structs
(`PuglKeyEvent`, `PuglTextEvent`, `PuglCrossingEvent`, `PuglButtonEvent`,
`PuglMotionEvent`, `PuglScrollEvent`) that `Event::process` reads: every one
of those structs has `time`, `x`, `y`, `xRoot`, `yRoot`, `state` and
`flags`. -/
structure RawInput where
  time : F64
  x : F64
  y : F64
  xRoot : F64
  yRoot : F64
  state : Nat
  flags : Nat
  deriving DecidableEq, Repr

/-- One raw polymorphic event record: the native tagged union, read at the
discriminant `type_` exactly as the `match` in `Event::process` does.  The
`unknown` constructor covers every discriminant outside the closed set
(the `_ => return None` arm). -/
inductive RawEvent
  | realize
  | unrealize
  | loopEnter
  | loopLeave
  | configure (x y : Int) (width height : Nat) (style : Nat)
  | close
  | update
  | expose (x y : Int) (width height : Nat)
  | focusIn (mode : Nat)
  | focusOut (mode : Nat)
  | keyPress (input : RawInput) (keycode : Nat) (key : Nat)
  | keyRelease (input : RawInput) (keycode : Nat) (key : Nat)
  | text (input : RawInput) (keycode : Nat) (string : List Nat)
  | pointerIn (input : RawInput) (mode : Nat)
  | pointerOut (input : RawInput) (mode : Nat)
  | buttonPress (input : RawInput) (button : Nat)
  | buttonRelease (input : RawInput) (button : Nat)
  | motion (input : RawInput)
  | scroll (input : RawInput) (direction : Nat) (dx dy : F64)
  | client (data1 data2 : Nat)
  | timer (id : Nat)
  | dataOffer
  | dataEvent (typeIndex : Nat)
  | unknown (tag : Nat)
  deriving DecidableEq, Repr

/-- Is the raw discriminant in the closed set handled by the translator
(everything except the `unknown` catch-all)? -/
def RawEvent.inClosedSet : RawEvent → Bool
  | .unknown _ => false
  | _ => true

/-- `EventInput` from `data.rs`: the typed shared input fields. -/
structure EventInput where
  time : F64
  x : F64
  y : F64
  rootX : F64
  rootY : F64
  mods : Nat
  hint : Bool
  deriving DecidableEq, Repr

/-- The `EventInput { ... }` struct literal that `Event::process` builds,
identically, in each keyboard/pointer arm. -/
def RawInput.toEventInput (i : RawInput) : EventInput :=
  { time := i.time
    x := i.x
    y := i.y
    rootX := i.xRoot
    rootY := i.yRoot
    mods := Modifiers.fromBitsTruncate i.state
    hint := i.flags &&& sys.PUGL_IS_HINT ≠ 0 }

/-- `Event<'a, B>` from `data.rs`.  The backend setup/draw contexts are type
parameters `S` and `D` (produced by `B::setup` / `B::draw`); a borrowed
`&'a str` is carried as its byte list. -/
inductive Event (S D : Type)
  | configure (rect : Rect) (style : Nat)
  | realize (backend : S)
  | unrealize (backend : S)
  | enterLoop
  | leaveLoop
  | close
  | update
  | expose (backend : D) (rect : Rect)
  | focusIn (mode : CrossingMode)
  | focusOut (mode : CrossingMode)
  | keyPress (input : EventInput) (keycode : Nat) (key : Key)
  | keyRelease (input : EventInput) (keycode : Nat) (key : Key)
  | keyText (input : EventInput) (keycode : Nat) (text : List Nat)
  | pointerIn (input : EventInput) (mode : CrossingMode)
  | pointerOut (input : EventInput) (mode : CrossingMode)
  | pointerMotion (input : EventInput)
  | buttonPress (input : EventInput) (button : MouseButton)
  | buttonRelease (input : EventInput) (button : MouseButton)
  | scroll (input : EventInput) (direction : ScrollDirection) (dx dy : F64)
  | timer (id : Nat)
  | client (data1 data2 : Nat)
  | clipboard (text : List Nat)
  deriving Repr

/-- The native calls `Event::process` makes, as an environment.  `setupCtx`
and `drawCtx` are the values `B::setup(view)` / `B::draw(view)` produce for
this invocation; `clipboardType i` is the byte content (up to the NUL) of
`puglGetClipboardType(view, i)`; `clipboardData i` is `None` when
`puglGetClipboard(view, i, &len)` returns null and otherwise the `len`
bytes it points to. -/
structure NativeEnv (S D : Type) where
  setupCtx : S
  drawCtx : D
  numClipboardTypes : Nat
  clipboardType : Nat → List Nat
  clipboardData : Nat → Option (List Nat)

/-- Rust's `Iterator::position`: the index of the first element satisfying
the predicate. -/
def position (p : Nat → Bool) : List Nat → Option Nat
  | [] => none
  | b :: rest => if p b then some 0 else (position p rest).map (· + 1)

/-- `Event::process` from `data.rs`, embedded.  The result is the returned
`Option<Event>` paired with the list of indices passed to
`puglAcceptOffer` (the translator's only native side effect), in call
order. -/
def Event.process {S D : Type} (env : NativeEnv S D) :
    RawEvent → Option (Event S D) × List Nat
  | .realize => (some (.realize env.setupCtx), [])
  | .unrealize => (some (.unrealize env.setupCtx), [])
  | .loopEnter => (some .enterLoop, [])
  | .loopLeave => (some .leaveLoop, [])
  | .configure x y width height style =>
    (some (.configure { x := x, y := y, w := width, h := height }
        (ViewStyle.fromBitsTruncate style)), [])
  | .close => (some .close, [])
  | .update => (some .update, [])
  | .expose x y width height =>
    (some (.expose env.drawCtx { x := x, y := y, w := width, h := height }), [])
  | .focusIn mode => (some (.focusIn (CrossingMode.from_raw mode)), [])
  | .focusOut mode => (some (.focusOut (CrossingMode.from_raw mode)), [])
  | .keyPress input keycode key =>
    (some (.keyPress input.toEventInput keycode (Key.from_raw key)), [])
  | .keyRelease input keycode key =>
    (some (.keyRelease input.toEventInput keycode (Key.from_raw key)), [])
  | .text input keycode string =>
    -- `let len = bytes.iter().position(|&b| b == 0).unwrap_or(8);`
    -- `from_utf8(&bytes[..len]).ok()?` — a decode failure makes the whole
    -- translation return `None`.
    let len := (position (fun b => b == 0) string).getD 8
    if validUtf8 (string.take len) then
      (some (.keyText input.toEventInput keycode (string.take len)), [])
    else
      (none, [])
  | .pointerIn input mode =>
    (some (.pointerIn input.toEventInput (CrossingMode.from_raw mode)), [])
  | .pointerOut input mode =>
    (some (.pointerOut input.toEventInput (CrossingMode.from_raw mode)), [])
  | .buttonPress input button =>
    (some (.buttonPress input.toEventInput (MouseButton.from_raw button)), [])
  | .buttonRelease input button =>
    (some (.buttonRelease input.toEventInput (MouseButton.from_raw button)), [])
  | .motion input => (some (.pointerMotion input.toEventInput), [])
  | .scroll input direction dx dy =>
    (some (.scroll input.toEventInput (ScrollDirection.from_raw direction) dx dy), [])
  | .client data1 data2 => (some (.client data1 data2), [])
  | .timer id => (some (.timer id), [])
  | .dataOffer =>
    -- `for i in 0..num_types { if type == "text/plain" { accept(i) } }`
    let accepted := (List.range env.numClipboardTypes).foldl
      (fun acc i => if env.clipboardType i = textPlainBytes then acc ++ [i] else acc) []
    (none, accepted)
  | .dataEvent typeIndex =>
    if env.clipboardType typeIndex = textPlainBytes then
      match env.clipboardData typeIndex with
      | some bytes =>
        if validUtf8 bytes then (some (.clipboard bytes), []) else (none, [])
      | none => (none, [])
    else
      (none, [])
  | .unknown _ => (none, [])

/-! ## World: poison slot and event pump (`world.rs`) -/

/-- A captured panic payload (`Box<dyn Any + Send>`), carried as a token.
The wrapper never inspects the payload, it only moves it, so any carrier
type is faithful. -/
abbrev PanicPayload := Nat

/-- The mutable state of a `WorldInner`: the poison cell.  (The native world
handle itself is opaque and irrelevant to the claims.) -/
structure WorldState where
  poison : Option PanicPayload
  deriving DecidableEq, Repr

/-- `WorldInner::replace_poison` (`world.rs:188-194`): swap the poison cell,
returning the previous content.  (The `clear_poison` call on the mutex only
recovers a lock poisoned by an earlier panic; the cell swap semantics is the
`replace`.) -/
def WorldState.replace_poison (st : WorldState) (panic : Option PanicPayload) :
    Option PanicPayload × WorldState :=
  (st.poison, { st with poison := panic })

/-- What a call to `World::update` does, observably: re-raise a stored panic
(`resume_unwind`), return `Ok(bool)`, or return `Err(WorldError)`. -/
inductive UpdateOutcome
  | resumed (payload : PanicPayload)
  | ok (eventProcessed : Bool)
  | err
  deriving DecidableEq, Repr

/-- `timeout.map(|d| d.as_secs_f64()).unwrap_or(-1.0)` (`world.rs:133`).
A `Duration` is modelled as its (nonnegative) rational number of seconds,
and `as_secs_f64` as that value itself: the code only forwards it. -/
def timeoutToNative (timeout : Option Rat) : Rat :=
  (timeout.map (fun d => d)).getD (-1)

/-- `World::update` (`world.rs:127-140`), embedded.  `pump` is the native
`puglUpdate(world, timeout)` black box, an oracle from the timeout value to
a status code. -/
def World.update (pump : Rat → PuglStatus) (st : WorldState) (timeout : Option Rat) :
    UpdateOutcome × WorldState :=
  match st.replace_poison none with
  | (some poison, st') => (.resumed poison, st')
  | (none, st') =>
    match pump (timeoutToNative timeout) with
    | .success => (.ok true, st')
    | .failure => (.ok false, st')
    | _ => (.err, st')

/-- `World::new_program` (`world.rs:64-73`).  `alloc` is the result of the
native `puglNewWorld(PUGL_PROGRAM, 0)`: `none` models a null return, `some w`
a fresh handle.  On success the `WorldInner` starts with an empty poison
cell. -/
def World.new_program (alloc : Option Nat) : Except WorldError (Nat × WorldState) :=
  match alloc with
  | Option.none => .error .worldError
  | some w => .ok (w, { poison := none })

/-- `World::new_module` (`world.rs:78-87`).  `alloc` is the result of the
native `puglNewWorld(PUGL_MODULE, PUGL_WORLD_THREADS)`. -/
def World.new_module (alloc : Option Nat) : Except WorldError (Nat × WorldState) :=
  match alloc with
  | Option.none => .error .worldError
  | some w => .ok (w, { poison := none })

/-! ## View construction, realization and size hints (`view.rs`) -/

/-- The observable outcome of `UnrealizedView::new`: a constructed view, or a
Rust panic (from the `assert!`). -/
inductive NewViewOutcome
  | ok (view : Nat)
  | panicked (msg : String)
  deriving DecidableEq, Repr

/-- `UnrealizedView::new` (`view.rs:71-84`).  `alloc` is the result of the
native `puglNewView`: `none` models a null return.  The source runs
`assert!(!view.is_null(), "failed to allocate view")`, so a null allocation
panics; it does not return an error value. -/
def UnrealizedView.new (alloc : Option Nat) : NewViewOutcome :=
  match alloc with
  | Option.none => .panicked "failed to allocate view"
  | some v => .ok v

/-- `UnrealizedView::realize` (`view.rs:243-260`) together with the drop of
the consumed `self` on the error path.  `code` is the status returned by the
one native `puglRealize` call.  The second component records whether
`puglFreeView` ran on the view handle: `realize(self)` consumes the
`UnrealizedView`; on `Err` the contained `View` goes out of scope and its
`Drop` impl (`view.rs:572-578`) frees the handle, while on `Ok` the handle
moves into the returned `View`. -/
def UnrealizedView.realize (code : PuglStatus) : Except ViewError Unit × Bool :=
  match code with
  | .success => (.ok (), false)
  | .badConfiguration => (.error .badConfig, true)
  | .badBackend => (.error .badBackend, true)
  | .backendFailed => (.error .backendInit, true)
  | .registrationFailed => (.error .classRegister, true)
  | .realizeFailed => (.error .osRealize, true)
  | .createContextFailed => (.error .createContext, true)
  | .setFormatFailed => (.error .setPixelFormat, true)
  | .noMemory => (.error .outOfMemory, true)
  | _ => (.error .unknown, true)

/-- The size-hint slots touched by `View::set_size` (`PUGL_DEFAULT_SIZE`,
`PUGL_MIN_SIZE`, `PUGL_MAX_SIZE`, `PUGL_CURRENT_SIZE`). -/
inductive SizeHintField
  | defaultSize
  | minSize
  | maxSize
  | currentSize
  deriving DecidableEq, Repr

/-- Modelled from the spec: the per-view hint store of the native black box
(spec §6: "get/set string and integer hints ... size/position hints with
default/min/max/current variants, resizability").  Only the hints
`View::set_size` reads or writes are modelled. -/
structure ViewHints where
  resizable : Int
  defaultSize : Nat × Nat
  minSize : Nat × Nat
  maxSize : Nat × Nat
  currentSize : Nat × Nat
  deriving DecidableEq, Repr

/-- Modelled from the spec: `puglSetSizeHint` records the given hint value.
Whether the native call additionally reports success is left to an oracle,
because the wrapper only compares the status against `PUGL_SUCCESS`. -/
def ViewHints.storeSize (st : ViewHints) (field : SizeHintField) (width height : Nat) :
    ViewHints :=
  match field with
  | .defaultSize => { st with defaultSize := (width, height) }
  | .minSize => { st with minSize := (width, height) }
  | .maxSize => { st with maxSize := (width, height) }
  | .currentSize => { st with currentSize := (width, height) }

/-- One native hint-write issued by `View::set_size`, for the call log. -/
inductive NativeCall
  | setViewHintResizable (value : Int)
  | setSizeHint (field : SizeHintField) (width height : Nat)
  deriving DecidableEq, Repr

/-- `View::set_size` (`view.rs:289-305`), embedded over the hint store.
`oracle` is the status the native `puglSetSizeHint` returns for the one
checked call (the `PUGL_CURRENT_SIZE` write); the result triple is the
returned `bool`, the final hint store, and the chronological list of native
writes.  The source first reads `puglGetViewHint(PUGL_RESIZABLE)`; when it
is `0` it temporarily sets the resizable hint, rewrites the max and min size
hints to the requested size (ignoring their statuses), pushes the current
size, and restores the resizable hint. -/
def View.set_size (oracle : SizeHintField → Nat → Nat → PuglStatus)
    (st : ViewHints) (width height : Nat) : Bool × ViewHints × List NativeCall :=
  if st.resizable = 0 then
    let st1 := { st with resizable := 1 }
    let st2 := st1.storeSize .maxSize width height
    let st3 := st2.storeSize .minSize width height
    let st4 := st3.storeSize .currentSize width height
    let result := oracle .currentSize width height == .success
    let st5 := { st4 with resizable := 0 }
    (result, st5,
      [.setViewHintResizable 1,
       .setSizeHint .maxSize width height,
       .setSizeHint .minSize width height,
       .setSizeHint .currentSize width height,
       .setViewHintResizable 0])
  else
    (oracle .currentSize width height == .success,
     st.storeSize .currentSize width height,
     [.setSizeHint .currentSize width height])

/-! ## The dispatch trampoline and the stored callback (`view.rs`)

The heap-boxed event-handler closure stored behind the view's opaque
user-data slot is modelled by an allocation identifier; `slot` is the
pointer `puglGetHandle`/`puglSetHandle` manage (`none` = null).  Every
allocator event (boxing a new closure, `drop(Box::from_raw(..))`, and each
invocation of the stored closure) is appended to a chronological log, so
that exactly-once deallocation and no-use-after-free are properties of the
log. -/

abbrev HandlerId := Nat

/-- One observable action on stored callbacks. -/
inductive HandlerAction
  | alloc (id : HandlerId)
  | free (id : HandlerId)
  | invoke (id : HandlerId)
  deriving DecidableEq, Repr

/-- The callback-relevant state of one view: the user-data slot, a fresh-id
counter for new boxes, the chronological action log, and the owning World's
poison cell (reachable from the trampoline through the world handle). -/
structure HandlerState where
  slot : Option HandlerId
  nextId : HandlerId
  log : List HandlerAction
  poison : Option PanicPayload
  deriving DecidableEq, Repr

/-- The state `UnrealizedView::new` leaves behind: `puglSetHandle(view,
null_mut())` (`view.rs:76`), nothing allocated, empty poison. -/
def HandlerState.init : HandlerState :=
  { slot := none, nextId := 0, log := [], poison := none }

/-- `UnrealizedView::with_event_handler` (`view.rs:196-210`): read the old
handle; if non-null, drop the old box; then box the new closure and store
its pointer in the slot. -/
def UnrealizedView.with_event_handler (st : HandlerState) : HandlerState :=
  let st1 :=
    match st.slot with
    | some old => { st with log := st.log ++ [HandlerAction.free old] }
    | none => st
  { st1 with
    slot := some st1.nextId
    nextId := st1.nextId + 1
    log := st1.log ++ [HandlerAction.alloc st1.nextId] }

/-- What the application closure does when invoked: return normally, or
panic with a payload. -/
inductive CallbackResult
  | ret
  | panics (payload : PanicPayload)
  deriving DecidableEq, Repr

/-- The behaviour of stored closures, indexed by allocation id and the raw
event being dispatched. -/
abbrev CallbackBehavior := HandlerId → RawEvent → CallbackResult

/-- How one trampoline call returns to native code: with the normal
`PUGL_SUCCESS` status, or by a panic unwinding out of the `extern "C"`
function. -/
inductive DispatchOutcome
  | handled
  | panicEscaped (payload : PanicPayload)
  deriving DecidableEq, Repr

/-- The dispatch trampoline `event_handler` (`view.rs:648-669`), embedded.
Per raw event it: translates the event; if a typed event resulted and the
slot is non-null, invokes the stored closure; if the raw discriminant is
`PUGL_UNREALIZE`, drops the stored box immediately after the invocation
(without nulling the slot).  The source wraps the invocation in no
`catch_unwind`: a panic from the closure unwinds out of the `extern "C"`
boundary, and nothing in this function writes the poison cell. -/
def event_handler {S D : Type} (env : NativeEnv S D) (behavior : CallbackBehavior)
    (st : HandlerState) (raw : RawEvent) : DispatchOutcome × HandlerState :=
  match (Event.process env raw).1 with
  | some _ =>
    match st.slot with
    | some h =>
      let st1 := { st with log := st.log ++ [HandlerAction.invoke h] }
      match behavior h raw with
      | .ret =>
        if raw = .unrealize then
          (.handled, { st1 with log := st1.log ++ [HandlerAction.free h] })
        else
          (.handled, st1)
      | .panics p => (.panicEscaped p, st1)
    | none => (.handled, st)
  | none => (.handled, st)

/-- The operations an execution can perform on one view's callback state:
install a (fresh) handler via the builder, or have native code deliver one
raw event to the trampoline. -/
inductive ViewOp
  | install
  | deliver (raw : RawEvent)
  deriving DecidableEq, Repr

/-- Run a sequence of operations.  A panic escaping the trampoline unwinds
into native code (undefined behaviour / process abort in the source
language), so execution stops there. -/
def runOps {S D : Type} (env : NativeEnv S D) (behavior : CallbackBehavior)
    (st : HandlerState) : List ViewOp → HandlerState
  | [] => st
  | .install :: rest => runOps env behavior (UnrealizedView.with_event_handler st) rest
  | .deliver raw :: rest =>
    match event_handler env behavior st raw with
    | (.handled, st') => runOps env behavior st' rest
    | (.panicEscaped _, st') => st'

/-- The lifecycle discipline of the wrapper's API and of the native layer:
`with_event_handler` exists only on the `UnrealizedView` builder, so all
installs precede every delivery (phase `0`); deliveries happen on the
realized view (phase `1`); the `PUGL_UNREALIZE` notification is the native
teardown bracket, after which native code delivers nothing further to this
view (phase `2`).  Phase `2` admits no operations. -/
def validOpsFrom : Nat → List ViewOp → Bool
  | _, [] => true
  | 0, .install :: rest => validOpsFrom 0 rest
  | 0, .deliver raw :: rest =>
    if raw = .unrealize then validOpsFrom 2 rest else validOpsFrom 1 rest
  | 1, .install :: _ => false
  | 1, .deliver raw :: rest =>
    if raw = .unrealize then validOpsFrom 2 rest else validOpsFrom 1 rest
  | _, _ :: _ => false

/-- Check a log against an allocator discipline, threading the sets of
allocated and freed ids: an id is allocated at most once, freed at most once
and only while live, and invoked only while live.  Returns the final sets,
or `none` when the log violates the discipline. -/
def runLog : List HandlerId × List HandlerId → List HandlerAction →
    Option (List HandlerId × List HandlerId)
  | (allocd, freed), [] => some (allocd, freed)
  | (allocd, freed), .alloc i :: rest =>
    if i ∈ allocd then none else runLog (i :: allocd, freed) rest
  | (allocd, freed), .free i :: rest =>
    if i ∈ allocd ∧ i ∉ freed then runLog (allocd, i :: freed) rest
    else none
  | (allocd, freed), .invoke i :: rest =>
    if i ∈ allocd ∧ i ∉ freed then runLog (allocd, freed) rest
    else none

/-- A log is sound when it obeys the allocator discipline from the empty
initial sets: no double alloc of an id, every free and every invocation is
of a live (allocated, not yet freed) id — in particular no double free and
no invocation after free. -/
def logSound (log : List HandlerAction) : Bool :=
  (runLog ([], []) log).isSome

/-- A concrete trivial native environment over the stub backend (no
clipboard types advertised), used to instantiate universally quantified
theorems at concrete inputs. -/
def unitEnv : NativeEnv Unit Unit :=
  { setupCtx := ()
    drawCtx := ()
    numClipboardTypes := 0
    clipboardType := fun _ => []
    clipboardData := fun _ => none }

/-! ## Theorems -/

/-- **C3 counterexample**: view construction does *not* report a native
allocation failure as a typed error: `UnrealizedView::new` (reached from
`World::new_view`) runs `assert!(!view.is_null(), "failed to allocate
view")`, so a null allocation panics — it terminates rather than returning
an error value (the outcome type of the embedded constructor has no error
alternative at all). -/
theorem c3_new_view_panics_on_null :
    UnrealizedView.new none = NewViewOutcome.panicked "failed to allocate view" := rfl

/-- **C3 (amended)**: world creation reports native allocation failure as a
typed recoverable error — `World::new_program` and `World::new_module`
return `Err(WorldError)` exactly when `puglNewWorld` returns null, and `Ok`
with a fresh (unpoisoned) world otherwise — while view construction via
`World::new_view` instead panics with the assertion message
`"failed to allocate view"` when `puglNewView` returns null. -/
theorem c3_allocation_failure_reporting :
    World.new_program none = Except.error WorldError.worldError ∧
    World.new_module none = Except.error WorldError.worldError ∧
    (∀ w, World.new_program (some w) = Except.ok (w, { poison := none })) ∧
    (∀ w, World.new_module (some w) = Except.ok (w, { poison := none })) ∧
    UnrealizedView.new none = NewViewOutcome.panicked "failed to allocate view" ∧
    (∀ v, UnrealizedView.new (some v) = NewViewOutcome.ok v) :=
  ⟨rfl, rfl, fun _ => rfl, fun _ => rfl, rfl, fun _ => rfl⟩

/-- **C6**: `UnrealizedView::realize` performs one fallible native call; the
success status yields `Ok` with the handle kept alive (not freed), and every
failure status yields exactly the typed `ViewError` variant the source maps
it to — the three statuses outside the explicit list fall to
`ViewError::Unknown` — with the native view handle freed via the normal
view-free path (`Drop for View`) in every error case and only then. -/
theorem c6_realize_error_mapping :
    UnrealizedView.realize .success = (Except.ok (), false) ∧
    UnrealizedView.realize .badConfiguration = (Except.error ViewError.badConfig, true) ∧
    UnrealizedView.realize .badBackend = (Except.error ViewError.badBackend, true) ∧
    UnrealizedView.realize .backendFailed = (Except.error ViewError.backendInit, true) ∧
    UnrealizedView.realize .registrationFailed = (Except.error ViewError.classRegister, true) ∧
    UnrealizedView.realize .realizeFailed = (Except.error ViewError.osRealize, true) ∧
    UnrealizedView.realize .createContextFailed = (Except.error ViewError.createContext, true) ∧
    UnrealizedView.realize .setFormatFailed = (Except.error ViewError.setPixelFormat, true) ∧
    UnrealizedView.realize .noMemory = (Except.error ViewError.outOfMemory, true) ∧
    UnrealizedView.realize .failure = (Except.error ViewError.unknown, true) ∧
    UnrealizedView.realize .unknownError = (Except.error ViewError.unknown, true) ∧
    UnrealizedView.realize .badParameter = (Except.error ViewError.unknown, true) ∧
    UnrealizedView.realize .unsupported = (Except.error ViewError.unknown, true) ∧
    (∀ code, (UnrealizedView.realize code).2 = !(code == PuglStatus.success)) := by
  refine ⟨rfl, rfl, rfl, rfl, rfl, rfl, rfl, rfl, rfl, rfl, rfl, rfl, rfl, fun code => ?_⟩
  cases code <;> rfl

/-- **C8**: `World::update` passes a `None` timeout to the native pump as
the negative value `-1.0` ("block indefinitely") and `Some(d)` as `d`
seconds, and — when no poison is pending — maps the native `PUGL_SUCCESS`
to `Ok(true)`, `PUGL_FAILURE` to `Ok(false)`, and every other status to
`Err(WorldError)`, leaving the world state unchanged. -/
theorem c8_update_mapping (pump : Rat → PuglStatus) (st : WorldState)
    (timeout : Option Rat) (hpoison : st.poison = none) :
    timeoutToNative none = -1 ∧ timeoutToNative none < 0 ∧
    (∀ d : Rat, timeoutToNative (some d) = d) ∧
    World.update pump st timeout =
      (match pump (timeoutToNative timeout) with
       | .success => (UpdateOutcome.ok true, st)
       | .failure => (UpdateOutcome.ok false, st)
       | _ => (UpdateOutcome.err, st)) := by
  obtain ⟨p⟩ := st
  cases hpoison
  refine ⟨rfl, by norm_num [timeoutToNative], fun d => rfl, ?_⟩
  cases hp : pump (timeoutToNative timeout) <;>
    simp [World.update, WorldState.replace_poison, hp]

/-- Witness for C8: at `pump ≡ PUGL_SUCCESS`, an unpoisoned world and a
one-second timeout, `update` returns `Ok(true)`. -/
theorem c8_update_mapping_witness :
    ({ poison := none } : WorldState).poison = none ∧
    World.update (fun _ => PuglStatus.success) { poison := none } (some 1) =
      (UpdateOutcome.ok true, { poison := none }) :=
  ⟨rfl, ((c8_update_mapping (fun _ => PuglStatus.success) { poison := none }
    (some 1) rfl).2.2.2).trans rfl⟩

/-- **C9**: event translation is deterministic — for raw records whose
discriminant lies in the closed set, equal raw records translated against
equal native query responses yield identical outcomes (same typed variant
with identical fields and same accept-offer calls, or no event in both
runs).  The embedded translator is a pure function of the raw record and
the `NativeEnv` of query responses, so the two runs coincide. -/
theorem c9_translation_deterministic {S D : Type} (env1 env2 : NativeEnv S D)
    (e1 e2 : RawEvent) (henv : env1 = env2) (he : e1 = e2)
    (_hclosed : e1.inClosedSet = true) :
    Event.process env1 e1 = Event.process env2 e2 := by
  subst henv
  subst he
  rfl

/-- Witness for C9 at the `Close` raw event and the trivial environment. -/
theorem c9_translation_deterministic_witness :
    RawEvent.close.inClosedSet = true ∧
    Event.process unitEnv RawEvent.close = Event.process unitEnv RawEvent.close :=
  ⟨rfl, c9_translation_deterministic unitEnv unitEnv RawEvent.close RawEvent.close
    rfl rfl rfl⟩

/-- **C10**: the frame effect of `View::set_size`.  On a view whose
resizable hint is `0`, the call issues the write sequence
`resizable := 1`, `max := (w,h)`, `min := (w,h)`, `current := (w,h)`,
`resizable := 0` — so the resizable hint is temporarily `1` and restored to
`0` before returning, while the minimum- and maximum-size hints are left
permanently overwritten to `(w,h)`.  On a view whose resizable hint is
nonzero, only the current-size hint is written; resizable, minimum and
maximum hints are untouched.  In both cases the returned `bool` is the
native status of the current-size write. -/
theorem c10_set_size_frame_effect (oracle : SizeHintField → Nat → Nat → PuglStatus)
    (r : Int) (defS minS maxS curS : Nat × Nat) (w h : Nat) :
    View.set_size oracle ⟨r, defS, minS, maxS, curS⟩ w h =
      if r = 0 then
        (oracle .currentSize w h == PuglStatus.success,
         ⟨0, defS, (w, h), (w, h), (w, h)⟩,
         [.setViewHintResizable 1, .setSizeHint .maxSize w h, .setSizeHint .minSize w h,
          .setSizeHint .currentSize w h, .setViewHintResizable 0])
      else
        (oracle .currentSize w h == PuglStatus.success,
         ⟨r, defS, minS, maxS, (w, h)⟩,
         [.setSizeHint .currentSize w h]) := by
  by_cases hr : r = 0 <;> simp [View.set_size, ViewHints.storeSize, hr]

/-- **C2 counterexample**: with minimum `(128,128)`, maximum `(2048,2048)`
configured and the resizable hint `0`, requesting current size `(64,64)`
(with the native call reporting success) returns `true` and records current
size `(64,64)` — below the configured minimum — while overwriting the
minimum-size hint to `(64,64)`: the request is neither rejected nor
clamped. -/
theorem c2_below_minimum_accepted :
    (View.set_size (fun _ _ _ => PuglStatus.success)
       ⟨0, (640, 480), (128, 128), (2048, 2048), (640, 480)⟩ 64 64).1 = true ∧
    (View.set_size (fun _ _ _ => PuglStatus.success)
       ⟨0, (640, 480), (128, 128), (2048, 2048), (640, 480)⟩ 64 64).2.1.currentSize =
      (64, 64) ∧
    (View.set_size (fun _ _ _ => PuglStatus.success)
       ⟨0, (640, 480), (128, 128), (2048, 2048), (640, 480)⟩ 64 64).2.1.minSize =
      (64, 64) ∧
    64 < 128 := by
  refine ⟨rfl, rfl, rfl, by norm_num⟩

/-- **C2 (amended)**: `View::set_size` never rejects or clamps a request
against the configured minimum: it always records the requested size as the
current-size hint and returns only the native status of that write, and on
a view whose resizable hint is `0` it additionally overwrites the
minimum- and maximum-size hints to the requested size (pushing the size
through instead of validating it). -/
theorem c2_set_size_never_clamps (oracle : SizeHintField → Nat → Nat → PuglStatus)
    (r : Int) (defS minS maxS curS : Nat × Nat) (w h : Nat) :
    (View.set_size oracle ⟨r, defS, minS, maxS, curS⟩ w h).2.1.currentSize = (w, h) ∧
    (View.set_size oracle ⟨r, defS, minS, maxS, curS⟩ w h).1 =
      (oracle .currentSize w h == PuglStatus.success) ∧
    (View.set_size oracle ⟨0, defS, minS, maxS, curS⟩ w h).2.1.minSize = (w, h) ∧
    (View.set_size oracle ⟨0, defS, minS, maxS, curS⟩ w h).2.1.maxSize = (w, h) := by
  by_cases hr : r = 0 <;> simp [View.set_size, ViewHints.storeSize, hr]

/-- **C1**: the dispatch trampoline does **not** contain a panicking
callback.  Dispatching a `Close` event to a view whose installed callback
panics with payload `42` makes the panic unwind out of the `extern "C"`
trampoline (the source wraps the invocation in no `catch_unwind`); the
owning World's poison slot is left empty, and the next `World::update`
finds no poison and proceeds normally instead of re-raising the payload. -/
theorem c1_panic_escapes_trampoline :
    (event_handler unitEnv (fun _ _ => CallbackResult.panics 42)
       (UnrealizedView.with_event_handler HandlerState.init) RawEvent.close).1 =
      DispatchOutcome.panicEscaped 42 ∧
    (event_handler unitEnv (fun _ _ => CallbackResult.panics 42)
       (UnrealizedView.with_event_handler HandlerState.init) RawEvent.close).2.poison =
      none ∧
    World.update (fun _ => PuglStatus.success)
      { poison := (event_handler unitEnv (fun _ _ => CallbackResult.panics 42)
          (UnrealizedView.with_event_handler HandlerState.init) RawEvent.close).2.poison }
      (some 1) =
      (UpdateOutcome.ok true, { poison := none }) :=
  ⟨rfl, rfl, rfl⟩

/-- Taking up to the first zero byte (the whole list when there is none),
as `Event::process` computes it with `position`, is taking while nonzero. -/
theorem take_position_eq_takeWhile (l : List Nat) :
    l.take ((position (fun b => b == 0) l).getD l.length) =
      l.takeWhile (fun b => b != 0) := by
  induction l with
  | nil => rfl
  | cons b rest ih =>
    by_cases hb : b = 0
    · subst hb
      simp [position, List.takeWhile_cons]
    · have hb0 : (b == 0) = false := by simp [hb]
      have hb1 : (b != 0) = true := by simp [hb]
      simp only [position, hb0, Bool.false_eq_true, if_neg, List.takeWhile_cons, hb1,
        if_true, List.length_cons]
      cases hpos : position (fun x => x == 0) rest with
      | none =>
        have := ih
        rw [hpos] at this
        simp only [hpos, Option.map_none, Option.getD_none, Option.getD] at this ⊢
        simp [List.take_succ_cons, this]
      | some k =>
        have := ih
        rw [hpos] at this
        simp only [hpos, Option.map_some, Option.getD_some] at this ⊢
        simp [List.take_succ_cons, this]

/-- **C5**: for every raw text event whose byte buffer has the fixed size 8,
the translation yields `KeyText` whose `text` is exactly the buffer
truncated at its first zero byte (the whole buffer when no zero occurs)
whenever those bytes are valid UTF-8, and yields no event at all when they
are not. -/
theorem c5_keytext_decoding {S D : Type} (env : NativeEnv S D) (input : RawInput)
    (keycode : Nat) (buf : List Nat) (hlen : buf.length = 8) :
    (validUtf8 (buf.takeWhile (fun b => b != 0)) = true →
      Event.process env (.text input keycode buf) =
        (some (.keyText input.toEventInput keycode (buf.takeWhile (fun b => b != 0))), [])) ∧
    (validUtf8 (buf.takeWhile (fun b => b != 0)) = false →
      Event.process env (.text input keycode buf) = (none, [])) := by
  have key : buf.take ((position (fun b => b == 0) buf).getD 8) =
      buf.takeWhile (fun b => b != 0) := by
    rw [← hlen]
    exact take_position_eq_takeWhile buf
  constructor <;> intro hv <;> simp [Event.process, key, hv]

/-- Witness for C5: the buffer `"é"` + six zero bytes (8 bytes total)
decodes to the two UTF-8 bytes of `é`. -/
theorem c5_keytext_decoding_witness :
    ([0xC3, 0xA9, 0, 0, 0, 0, 0, 0] : List Nat).length = 8 ∧
    Event.process unitEnv
        (RawEvent.text ⟨0, 0, 0, 0, 0, 0, 0⟩ 5 [0xC3, 0xA9, 0, 0, 0, 0, 0, 0]) =
      (some (Event.keyText (RawInput.toEventInput ⟨0, 0, 0, 0, 0, 0, 0⟩) 5 [0xC3, 0xA9]),
       []) :=
  ⟨rfl,
    (c5_keytext_decoding unitEnv ⟨0, 0, 0, 0, 0, 0, 0⟩ 5
      [0xC3, 0xA9, 0, 0, 0, 0, 0, 0] rfl).1 (by decide)⟩

/-- The accept-offer loop of `Event::process` (a fold appending each
accepted index) accepts exactly the indices selected by the predicate, in
order. -/
theorem foldl_accept_eq_filter (p : Nat → Prop) [DecidablePred p]
    (l : List Nat) (acc : List Nat) :
    l.foldl (fun acc i => if p i then acc ++ [i] else acc) acc =
      acc ++ l.filter (fun i => decide (p i)) := by
  induction l generalizing acc with
  | nil => simp
  | cons b rest ih =>
    by_cases hb : p b <;> simp [List.foldl_cons, List.filter_cons, hb, ih]

/-- **C4**: the two-phase clipboard protocol.  A raw data-offer event yields
no typed event, and the native accept-offer operation is called exactly on
the advertised indices whose type is `text/plain` (an index is accepted iff
it is in range and its type is `text/plain`; no other type is ever
accepted).  A raw data event makes no accept calls, and yields a typed
event iff its indexed type is `text/plain` and the data bytes are present
and valid UTF-8 — in which case the event is `Clipboard` carrying exactly
those bytes; in every other case (other type, absent data, invalid UTF-8)
it yields no event. -/
theorem c4_clipboard_two_phase {S D : Type} (env : NativeEnv S D) :
    ((Event.process env RawEvent.dataOffer).1 = none) ∧
    ((Event.process env RawEvent.dataOffer).2 =
      (List.range env.numClipboardTypes).filter
        (fun i => decide (env.clipboardType i = textPlainBytes))) ∧
    (∀ i, i ∈ (Event.process env RawEvent.dataOffer).2 ↔
      (i < env.numClipboardTypes ∧ env.clipboardType i = textPlainBytes)) ∧
    (∀ idx, (Event.process env (RawEvent.dataEvent idx)).2 = []) ∧
    (∀ idx (ev : Event S D), (Event.process env (RawEvent.dataEvent idx)).1 = some ev ↔
      (env.clipboardType idx = textPlainBytes ∧
       ∃ bytes, env.clipboardData idx = some bytes ∧ validUtf8 bytes = true ∧
         ev = Event.clipboard bytes)) := by
  have hoffer : (Event.process env RawEvent.dataOffer).2 =
      (List.range env.numClipboardTypes).filter
        (fun i => decide (env.clipboardType i = textPlainBytes)) := by
    simpa [Event.process] using
      foldl_accept_eq_filter (fun i => env.clipboardType i = textPlainBytes)
        (List.range env.numClipboardTypes) []
  refine ⟨by simp [Event.process], hoffer, ?_, ?_, ?_⟩
  · intro i
    rw [hoffer]
    simp [List.mem_filter, List.mem_range, and_comm]
  · intro idx
    by_cases ht : env.clipboardType idx = textPlainBytes
    · cases hdata : env.clipboardData idx with
      | none => simp [Event.process, ht, hdata]
      | some bytes =>
        by_cases hv : validUtf8 bytes <;> simp [Event.process, ht, hdata, hv]
    · simp [Event.process, ht]
  · intro idx ev
    by_cases ht : env.clipboardType idx = textPlainBytes
    · cases hdata : env.clipboardData idx with
      | none => simp [Event.process, ht, hdata]
      | some bytes =>
        cases hvb : validUtf8 bytes with
        | false => simp [Event.process, ht, hdata, hvb]
        | true =>
          constructor
          · intro hev
            have hev' : Event.clipboard bytes = ev := by
              simpa [Event.process, ht, hdata, hvb] using hev
            exact ⟨ht, bytes, rfl, hvb, hev'.symm⟩
          · rintro ⟨-, bytes2, hb2, hv2, hev⟩
            injection hb2 with hbb'
            subst hbb'
            subst hev
            simp [Event.process, ht, hdata, hvb]
    · simp [Event.process, ht]

/-- `runLog` distributes over appending logs: the tail is checked from the
sets the head produced. -/
theorem runLog_append (acc : List HandlerId × List HandlerId)
    (l1 l2 : List HandlerAction) :
    runLog acc (l1 ++ l2) = (runLog acc l1).bind fun acc2 => runLog acc2 l2 := by
  induction l1 generalizing acc with
  | nil => simp [runLog]
  | cons a rest ih =>
    obtain ⟨allocd, freed⟩ := acc
    cases a with
    | alloc i => by_cases hi : i ∈ allocd <;> simp [runLog, hi, ih]
    | free i => by_cases hi : i ∈ allocd ∧ i ∉ freed <;> simp [runLog, hi, ih]
    | invoke i => by_cases hi : i ∈ allocd ∧ i ∉ freed <;> simp [runLog, hi, ih]

/-- The reachability invariant of the callback state machine: the log obeys
the allocator discipline producing the sets `allocd`/`freed`, the slot (if
non-null) points at a live allocation, the fresh-id counter dominates every
allocated id, and only allocated ids have been freed. -/
def HandlerInv (st : HandlerState) (allocd freed : List HandlerId) : Prop :=
  runLog ([], []) st.log = some (allocd, freed) ∧
  (∀ i, st.slot = some i → i ∈ allocd ∧ i ∉ freed) ∧
  (∀ i, i ∈ allocd → i < st.nextId) ∧
  (∀ i, i ∈ freed → i ∈ allocd)

/-- `with_event_handler` preserves the invariant (for some extended sets):
the old box, if any, is freed (it was live) and a fresh box is allocated. -/
theorem with_event_handler_inv (st : HandlerState) (allocd freed : List HandlerId)
    (hinv : HandlerInv st allocd freed) :
    ∃ allocd2 freed2,
      HandlerInv (UnrealizedView.with_event_handler st) allocd2 freed2 := by
  obtain ⟨hlog, hslot, hlt, hsub⟩ := hinv
  have hfresh : st.nextId ∉ allocd := fun hmem => absurd (hlt _ hmem) (lt_irrefl _)
  have hfreshf : st.nextId ∉ freed := fun hmem => hfresh (hsub _ hmem)
  cases hs : st.slot with
  | none =>
    have hnew : UnrealizedView.with_event_handler st =
        { slot := some st.nextId, nextId := st.nextId + 1,
          log := st.log ++ [HandlerAction.alloc st.nextId], poison := st.poison } := by
      simp [UnrealizedView.with_event_handler, hs]
    refine ⟨st.nextId :: allocd, freed, ?_, ?_, ?_, ?_⟩
    · rw [hnew]
      show runLog ([], []) (st.log ++ [HandlerAction.alloc st.nextId]) = _
      rw [runLog_append, hlog]
      simp [runLog, hfresh]
    · rw [hnew]
      intro i hi
      injection hi with hi
      subst hi
      exact ⟨List.mem_cons_self _ _, hfreshf⟩
    · rw [hnew]
      intro i hi
      show i < st.nextId + 1
      rcases List.mem_cons.mp hi with h | h
      · exact h ▸ Nat.lt_succ_self _
      · exact Nat.lt_succ_of_lt (hlt _ h)
    · intro i hi
      exact List.mem_cons_of_mem _ (hsub _ hi)
  | some old =>
    obtain ⟨hom, hof⟩ := hslot _ hs
    have hnotold : st.nextId ≠ old := fun he => hfresh (he ▸ hom)
    have hnew : UnrealizedView.with_event_handler st =
        { slot := some st.nextId, nextId := st.nextId + 1,
          log := st.log ++ [HandlerAction.free old, HandlerAction.alloc st.nextId],
          poison := st.poison } := by
      simp [UnrealizedView.with_event_handler, hs]
    refine ⟨st.nextId :: allocd, old :: freed, ?_, ?_, ?_, ?_⟩
    · rw [hnew]
      show runLog ([], [])
          (st.log ++ [HandlerAction.free old, HandlerAction.alloc st.nextId]) = _
      rw [runLog_append, hlog]
      simp [runLog, hom, hof, hfresh]
    · rw [hnew]
      intro i hi
      injection hi with hi
      subst hi
      refine ⟨List.mem_cons_self _ _, ?_⟩
      intro hmem
      rcases List.mem_cons.mp hmem with h | h
      · exact hnotold h
      · exact hfreshf h
    · rw [hnew]
      intro i hi
      show i < st.nextId + 1
      rcases List.mem_cons.mp hi with h | h
      · exact h ▸ Nat.lt_succ_self _
      · exact Nat.lt_succ_of_lt (hlt _ h)
    · intro i hi
      rcases List.mem_cons.mp hi with h | h
      · subst h
        exact List.mem_cons_of_mem _ hom
      · exact List.mem_cons_of_mem _ (hsub _ h)

/-- A dispatch that returns the handled status on a non-unrealize event
preserves the invariant with the same sets: at most one invocation of the
live slot id is appended. -/
theorem event_handler_handled_inv {S D : Type} (env : NativeEnv S D)
    (behavior : CallbackBehavior) (st st' : HandlerState) (raw : RawEvent)
    (allocd freed : List HandlerId) (hinv : HandlerInv st allocd freed)
    (hne : raw ≠ RawEvent.unrealize)
    (hstep : event_handler env behavior st raw = (DispatchOutcome.handled, st')) :
    HandlerInv st' allocd freed := by
  obtain ⟨hlog, hslot, hlt, hsub⟩ := hinv
  rcases hp : (Event.process env raw).1 with _ | ev
  · simp only [event_handler, hp] at hstep
    injection hstep with h1 h2
    subst h2
    exact ⟨hlog, hslot, hlt, hsub⟩
  · rcases hs : st.slot with _ | h
    · simp only [event_handler, hp, hs] at hstep
      injection hstep with h1 h2
      subst h2
      exact ⟨hlog, hslot, hlt, hsub⟩
    · obtain ⟨hm, hf⟩ := hslot _ hs
      rcases hb : behavior h raw with _ | p
      · simp only [event_handler, hp, hs, hb, if_neg hne] at hstep
        injection hstep with h1 h2
        subst h2
        refine ⟨?_, ?_, hlt, hsub⟩
        · show runLog ([], []) (st.log ++ [HandlerAction.invoke h]) = _
          rw [runLog_append, hlog]
          simp [runLog, hm, hf]
        · intro i hi
          have hi' : st.slot = some i := hs.trans (by
            injection hi with hi
            rw [hi])
          exact hslot i hi'
      · simp only [event_handler, hp, hs, hb] at hstep
        exact absurd (congrArg Prod.fst hstep) (by simp)

/-- After any single dispatch — whatever the raw event, including the
unrealize notification, and whether or not the callback panics — the
resulting log still obeys the allocator discipline. -/
theorem event_handler_post_logSound {S D : Type} (env : NativeEnv S D)
    (behavior : CallbackBehavior) (st : HandlerState) (raw : RawEvent)
    (allocd freed : List HandlerId) (hinv : HandlerInv st allocd freed) :
    logSound ((event_handler env behavior st raw).2).log = true := by
  obtain ⟨hlog, hslot, hlt, hsub⟩ := hinv
  rcases hp : (Event.process env raw).1 with _ | ev
  · simp [event_handler, hp, logSound, hlog]
  · rcases hs : st.slot with _ | h
    · simp [event_handler, hp, hs, logSound, hlog]
    · obtain ⟨hm, hf⟩ := hslot _ hs
      rcases hb : behavior h raw with _ | p
      · by_cases hru : raw = RawEvent.unrealize
        · subst hru
          simp only [event_handler, hp, hs, hb, if_pos rfl]
          show logSound ((st.log ++ [HandlerAction.invoke h]) ++ [HandlerAction.free h]) = true
          rw [logSound, runLog_append, runLog_append, hlog]
          simp [runLog, hm, hf]
        · simp only [event_handler, hp, hs, hb, if_neg hru]
          show logSound (st.log ++ [HandlerAction.invoke h]) = true
          rw [logSound, runLog_append, hlog]
          simp [runLog, hm, hf]
      · simp only [event_handler, hp, hs, hb]
        show logSound (st.log ++ [HandlerAction.invoke h]) = true
        rw [logSound, runLog_append, hlog]
        simp [runLog, hm, hf]

/-- After the teardown bracket (phase 2) no further operations are valid. -/
theorem validOpsFrom_two (rest : List ViewOp)
    (h : validOpsFrom 2 rest = true) : rest = [] := by
  cases rest with
  | nil => rfl
  | cons op rest2 =>
    exfalso
    cases op <;> simp [validOpsFrom] at h

/-- Running any valid operation sequence from an invariant-satisfying state
leaves a sound log. -/
theorem runOps_logSound {S D : Type} (env : NativeEnv S D)
    (behavior : CallbackBehavior) :
    ∀ (ops : List ViewOp) (phase : Nat) (st : HandlerState)
      (allocd freed : List HandlerId),
      (phase = 0 ∨ phase = 1) →
      validOpsFrom phase ops = true →
      HandlerInv st allocd freed →
      logSound (runOps env behavior st ops).log = true := by
  intro ops
  induction ops with
  | nil =>
    intro phase st allocd freed _ _ hinv
    simp [runOps, logSound, hinv.1]
  | cons op rest ih =>
    intro phase st allocd freed hph hval hinv
    cases op with
    | install =>
      have hph0 : phase = 0 := by
        rcases hph with h | h
        · exact h
        · subst h
          simp [validOpsFrom] at hval
      subst hph0
      have hval' : validOpsFrom 0 rest = true := by
        simpa [validOpsFrom] using hval
      obtain ⟨allocd2, freed2, hinv2⟩ := with_event_handler_inv st allocd freed hinv
      simpa [runOps] using ih 0 _ allocd2 freed2 (Or.inl rfl) hval' hinv2
    | deliver raw =>
      by_cases hru : raw = RawEvent.unrealize
      · subst hru
        have hrest : rest = [] := by
          apply validOpsFrom_two
          rcases hph with h | h <;> subst h <;> simpa [validOpsFrom] using hval
        subst hrest
        rcases hstep : event_handler env behavior st RawEvent.unrealize with ⟨out, st'⟩
        have hpost := event_handler_post_logSound env behavior st RawEvent.unrealize
          allocd freed hinv
        rw [hstep] at hpost
        cases out <;> simpa [runOps, hstep] using hpost
      · have hval' : validOpsFrom 1 rest = true := by
          rcases hph with h | h <;> subst h <;> simpa [validOpsFrom, hru] using hval
        rcases hstep : event_handler env behavior st raw with ⟨out, st'⟩
        cases out with
        | handled =>
          have hinv' := event_handler_handled_inv env behavior st st' raw
            allocd freed hinv hru hstep
          simpa [runOps, hstep] using ih 1 st' allocd freed (Or.inr rfl) hval' hinv'
        | panicEscaped p =>
          have hpost := event_handler_post_logSound env behavior st raw
            allocd freed hinv
          rw [hstep] at hpost
          simpa [runOps, hstep] using hpost

/-- **C7**: at most one stored callback exists at a time and it is freed
exactly once.  (1) Over every operation sequence respecting the wrapper's
lifecycle (installs only during building, deliveries afterwards, nothing
after the unrealize notification), the action log from the initial state is
sound: no id is allocated twice, every free and every invocation is of a
live callback — hence each callback is deallocated at most once and never
invoked after its deallocation.  (2) Installing a new callback over an
existing one appends exactly one free of the old box before the single
alloc of the new one.  (3) Dispatching the unrealize notification to a view
with an installed callback invokes it with that event and then immediately
deallocates it, exactly once. -/
theorem c7_callback_exactly_once {S D : Type} (env : NativeEnv S D)
    (behavior : CallbackBehavior) (ops : List ViewOp)
    (hvalid : validOpsFrom 0 ops = true) :
    logSound (runOps env behavior HandlerState.init ops).log = true ∧
    (∀ (st : HandlerState) (old : HandlerId), st.slot = some old →
      UnrealizedView.with_event_handler st =
        { slot := some st.nextId, nextId := st.nextId + 1,
          log := st.log ++ [HandlerAction.free old, HandlerAction.alloc st.nextId],
          poison := st.poison }) ∧
    (∀ (st : HandlerState) (h : HandlerId), st.slot = some h →
      behavior h RawEvent.unrealize = CallbackResult.ret →
      event_handler env behavior st RawEvent.unrealize =
        (DispatchOutcome.handled,
         { st with log := st.log ++ [HandlerAction.invoke h, HandlerAction.free h] })) := by
  refine ⟨?_, ?_, ?_⟩
  · apply runOps_logSound env behavior ops 0 HandlerState.init [] [] (Or.inl rfl) hvalid
    refine ⟨rfl, ?_, ?_, ?_⟩ <;> simp [HandlerState.init]
  · intro st old hs
    simp [UnrealizedView.with_event_handler, hs]
  · intro st h hs hb
    simp [event_handler, Event.process, hs, hb]

/-- Witness for C7: the trace "install, install again, deliver a close
event, deliver the unrealize notification" is valid and leaves a sound
log. -/
theorem c7_callback_exactly_once_witness :
    validOpsFrom 0
      [ViewOp.install, ViewOp.install, ViewOp.deliver RawEvent.close,
       ViewOp.deliver RawEvent.unrealize] = true ∧
    logSound (runOps unitEnv (fun _ _ => CallbackResult.ret) HandlerState.init
      [ViewOp.install, ViewOp.install, ViewOp.deliver RawEvent.close,
       ViewOp.deliver RawEvent.unrealize]).log = true :=
  ⟨by decide,
    (c7_callback_exactly_once unitEnv (fun _ _ => CallbackResult.ret) _ (by decide)).1⟩

end Pugl
